import Mathlib

/-
Shallow embedding of the CdkappStack topology declaration
(src/cdkapp_stack.py). The stack constructor is a pure function from its
inputs (scope, construct id, the availability zones supplied by the
deployment environment, and the boot-payload file system) to a static
resource graph. The only effect in the source is one file read
(open of cdkapp/userdata.sh); evaluation is modelled as returning an
optional resource graph (none when the read fails) together with the list
of file paths read during evaluation.
-/

/-- Subnet classes used by the VPC declaration (ec2.SubnetType in the source). -/
inductive SubnetType where
  | PUBLIC
  | PRIVATE_WITH_EGRESS
  | PRIVATE_ISOLATED
deriving DecidableEq, Repr

/-- One entry of the subnet_configuration list passed to ec2.Vpc. -/
structure SubnetConfiguration where
  subnet_type : SubnetType
  name : String
  cidr_mask : Nat
deriving DecidableEq, Repr

/-- The VPC declaration. availability_zones models vpc.availability_zones:
the environment-agnostic stack resolves this to a list of zone names
indexed from 0, supplied by the deployment environment, modelled here as a
total indexing function. -/
structure Vpc where
  ip_addresses : String
  nat_gateways : Nat
  subnet_configuration : List SubnetConfiguration
  availability_zones : Nat → String

/-- An ingress-rule source (ec2.Peer in the source): either any IPv4
address, or a reference to another security group by construct id. -/
inductive Peer where
  | any_ipv4
  | security_group (construct_id : String)
deriving DecidableEq, Repr

/-- A protocol and port pair (ec2.Port in the source). -/
structure Port where
  protocol : String
  port : Nat
deriving DecidableEq, Repr

/-- Port.tcp from the source: TCP on the given port. -/
def Port.tcp (port : Nat) : Port :=
  { protocol := "tcp", port := port }

/-- One allowed inbound flow of a security group. -/
structure IngressRule where
  peer : Peer
  connection : Port
deriving DecidableEq, Repr

/-- A security group (ec2.SecurityGroup): a construct id, the
allow_all_outbound flag, and the ordered list of authored ingress rules. -/
structure SecurityGroup where
  construct_id : String
  allow_all_outbound : Bool
  ingress_rules : List IngressRule
deriving DecidableEq, Repr

/-- add_ingress_rule appends one allowed inbound flow. -/
def SecurityGroup.add_ingress_rule (sg : SecurityGroup) (peer : Peer)
    (connection : Port) : SecurityGroup :=
  { sg with ingress_rules := sg.ingress_rules ++ [{ peer := peer, connection := connection }] }

/-- Outbound permission of a security group: the source sets
allow_all_outbound on every group and authors no egress rule, so a group
permits an outbound flow exactly when its allow_all_outbound flag is set. -/
def SecurityGroup.allows_outbound (sg : SecurityGroup) (_dest : Peer)
    (_port : Nat) : Bool :=
  sg.allow_all_outbound

/-- Database credentials (rds.Credentials): the source builds them with
from_password from literal values; the SDK alternative of generating and
storing a secret is the other constructor. -/
inductive Credentials where
  | from_password (username : String) (password : String)
  | from_generated_secret (username : String)
deriving DecidableEq, Repr

/-- Whether the credentials are retrieved from or stored in a secret
store rather than given as literal values. -/
def Credentials.from_secret_store : Credentials → Bool
  | .from_password _ _ => false
  | .from_generated_secret _ => true

/-- The database engine selection (rds.DatabaseClusterEngine.aurora_mysql
with an explicit version). -/
structure ClusterEngine where
  kind : String
  version : String
deriving DecidableEq, Repr

/-- The instance_props argument of rds.DatabaseCluster: security groups are
referenced by construct id, subnets by subnet class. -/
structure InstanceProps where
  security_groups : List String
  vpc_subnets : SubnetType
deriving DecidableEq, Repr

/-- The rds.DatabaseCluster declaration. -/
structure DatabaseCluster where
  construct_id : String
  engine : ClusterEngine
  credentials : Credentials
  default_database_name : String
  instance_props : InstanceProps
  instances : Nat
deriving DecidableEq, Repr

/-- The machine image selection (ec2.MachineImage.latest_amazon_linux
with the four keyword selectors used in the source). -/
structure MachineImage where
  generation : String
  edition : String
  virtualization : String
  storage : String
deriving DecidableEq, Repr

/-- An existing IAM role referenced by name (iam.Role.from_role_name). -/
structure RoleRef where
  construct_id : String
  role_name : String
deriving DecidableEq, Repr

/-- An ec2.Instance declaration. The security group is referenced by
construct id; user_data holds the custom boot payload byte for byte. -/
structure Ec2Instance where
  construct_id : String
  instance_type : String
  machine_image : MachineImage
  vpc_subnets : SubnetType
  availability_zone : String
  security_group : String
  user_data : String
  role : RoleRef
deriving DecidableEq, Repr

/-- A target group created by listener.add_targets: a construct id, the
forward port, and the registered targets (instance construct ids). -/
structure TargetGroup where
  construct_id : String
  port : Nat
  targets : List String
deriving DecidableEq, Repr

/-- A listener created by lb.add_listener. -/
structure Listener where
  construct_id : String
  port : Nat
  «open» : Bool
  target_groups : List TargetGroup
deriving DecidableEq, Repr

/-- add_targets appends a target group to the listener. The source call
passes only a construct id and a port and registers no targets, so the
call site below supplies the empty target list (the SDK default). -/
def Listener.add_targets (l : Listener) (construct_id : String) (port : Nat)
    (targets : List String) : Listener :=
  { l with target_groups := l.target_groups ++
      [{ construct_id := construct_id, port := port, targets := targets }] }

/-- The elbv2.ApplicationLoadBalancer declaration. An internet-facing
distributor is placed into the public subnets by the SDK default. -/
structure ApplicationLoadBalancer where
  construct_id : String
  internet_facing : Bool
  security_group : String
  subnet_placement : SubnetType
deriving DecidableEq, Repr

/-- add_listener creates a listener on the given port. When the open flag
is set the SDK also authorizes inbound traffic from any IPv4 address on
the listener port in the security group of the load balancer, so the call
returns the listener together with the updated security group. -/
def ApplicationLoadBalancer.add_listener (_lb : ApplicationLoadBalancer)
    (construct_id : String) (port : Nat) («open» : Bool)
    (lb_sg : SecurityGroup) : Listener × SecurityGroup :=
  ({ construct_id := construct_id, port := port, «open» := «open», target_groups := [] },
   if «open» then lb_sg.add_ingress_rule Peer.any_ipv4 (Port.tcp port) else lb_sg)

/-- node.add_dependency: record that the first construct must wait for the
second, stored as the ordering edge (dependency, dependent), read as
"dependency must be ready before dependent". -/
def Node.add_dependency (edges : List (String × String))
    (dependent : String) (dependency : String) : List (String × String) :=
  edges ++ [(dependency, dependent)]

/-- The resource graph materialized by one evaluation of the stack
constructor: the final state of every declared resource plus the authored
ordering edges. -/
structure ResourceGraph where
  scope : String
  construct_id : String
  vpc : Vpc
  lb_sg : SecurityGroup
  rds_sg : SecurityGroup
  ec2_sg : SecurityGroup
  cluster : DatabaseCluster
  ec2_instance : Ec2Instance
  ec2_instance2 : Ec2Instance
  lb : ApplicationLoadBalancer
  listeners : List Listener
  ordering_edges : List (String × String)

/-- The body of CdkappStack.__init__ after the boot payload has been read:
every declaration of src/cdkapp_stack.py in source order, producing the
resource graph. azs models vpc.availability_zones; user_data is the
content read from cdkapp/userdata.sh. -/
def CdkappStack.resources (scope : String) (construct_id : String)
    (azs : Nat → String) (user_data : String) : ResourceGraph :=
  let vpc : Vpc :=
    { ip_addresses := "10.10.0.0/16"
      nat_gateways := 1
      subnet_configuration :=
        [{ subnet_type := SubnetType.PUBLIC, name := "Public", cidr_mask := 24 },
         { subnet_type := SubnetType.PRIVATE_WITH_EGRESS, name := "PrivateWithEgress", cidr_mask := 24 },
         { subnet_type := SubnetType.PRIVATE_ISOLATED, name := "RDS", cidr_mask := 24 }]
      availability_zones := azs }
  let lb_sg : SecurityGroup :=
    { construct_id := "lb_sg", allow_all_outbound := true, ingress_rules := [] }
  let rds_sg : SecurityGroup :=
    { construct_id := "rds_sg", allow_all_outbound := true, ingress_rules := [] }
  let ec2_sg : SecurityGroup :=
    { construct_id := "ec2_sg", allow_all_outbound := true, ingress_rules := [] }
  let lb_sg := lb_sg.add_ingress_rule Peer.any_ipv4 (Port.tcp 80)
  let ec2_sg := ec2_sg.add_ingress_rule (Peer.security_group lb_sg.construct_id) (Port.tcp 8443)
  let rds_sg := rds_sg.add_ingress_rule (Peer.security_group ec2_sg.construct_id) (Port.tcp 3306)
  let rds_sg := rds_sg.add_ingress_rule (Peer.security_group ec2_sg.construct_id) (Port.tcp 22)
  let cluster : DatabaseCluster :=
    { construct_id := "MyDatabase"
      engine := { kind := "aurora-mysql", version := "VER_3_04_0" }
      credentials := Credentials.from_password "testuser" "password1234!"
      default_database_name := "Population"
      instance_props :=
        { security_groups := [rds_sg.construct_id]
          vpc_subnets := SubnetType.PRIVATE_ISOLATED }
      instances := 1 }
  let amzn_linux : MachineImage :=
    { generation := "AMAZON_LINUX_2", edition := "STANDARD"
      virtualization := "HVM", storage := "GENERAL_PURPOSE" }
  let ec2_instance : Ec2Instance :=
    { construct_id := "MyInstance"
      instance_type := "t2.small"
      machine_image := amzn_linux
      vpc_subnets := SubnetType.PRIVATE_WITH_EGRESS
      availability_zone := vpc.availability_zones 0
      security_group := ec2_sg.construct_id
      user_data := user_data
      role := { construct_id := "ec2_instance_role", role_name := "ec2_instance_role" } }
  let ec2_instance2 : Ec2Instance :=
    { construct_id := "MyInstance2"
      instance_type := "t2.small"
      machine_image := amzn_linux
      vpc_subnets := SubnetType.PRIVATE_WITH_EGRESS
      availability_zone := vpc.availability_zones 1
      security_group := ec2_sg.construct_id
      user_data := user_data
      role := { construct_id := "ec2_instance_role2", role_name := "ec2_instance_role" } }
  let lb : ApplicationLoadBalancer :=
    { construct_id := "MyLoadBalancer"
      internet_facing := true
      security_group := lb_sg.construct_id
      subnet_placement := SubnetType.PUBLIC }
  let (listener, lb_sg) := lb.add_listener "Listener" 80 true lb_sg
  let listener := listener.add_targets "Targets" 80 []
  let edges : List (String × String) := []
  let edges := Node.add_dependency edges ec2_instance.construct_id cluster.construct_id
  let edges := Node.add_dependency edges listener.construct_id ec2_instance.construct_id
  let edges := Node.add_dependency edges listener.construct_id ec2_instance2.construct_id
  { scope := scope
    construct_id := construct_id
    vpc := vpc
    lb_sg := lb_sg
    rds_sg := rds_sg
    ec2_sg := ec2_sg
    cluster := cluster
    ec2_instance := ec2_instance
    ec2_instance2 := ec2_instance2
    lb := lb
    listeners := [listener]
    ordering_edges := edges }

/-- Evaluation of the stack constructor against a file system fs (path to
optional content). The source performs exactly one file read, of the fixed
relative path cdkapp/userdata.sh; a missing or unreadable file raises
before synthesis, so no resource graph is produced. The second component
is the list of paths read during evaluation. -/
def evalCdkappStack (scope : String) (construct_id : String)
    (azs : Nat → String) (fs : String → Option String) :
    Option ResourceGraph × List String :=
  match fs "cdkapp/userdata.sh" with
  | none => (none, ["cdkapp/userdata.sh"])
  | some user_data =>
      (some (CdkappStack.resources scope construct_id azs user_data),
       ["cdkapp/userdata.sh"])

/-- A concrete availability-zone assignment used for witnesses. -/
def exAzs : Nat → String :=
  fun n => if n = 0 then "ap-northeast-1a" else "ap-northeast-1c"

/-- A concrete file system holding the boot payload, used for witnesses. -/
def exFs : String → Option String :=
  fun p => if p = "cdkapp/userdata.sh" then some "yum update -y" else none

/-- A concrete file system agreeing with exFs on the boot payload path but
differing elsewhere, used for the determinism witness. -/
def exFs2 : String → Option String :=
  fun p => if p = "cdkapp/userdata.sh" then some "yum update -y" else some "other"

/-- A concrete file system with the boot payload missing. -/
def exFsMissing : String → Option String :=
  fun _ => none

/-- C1 (amended): the resource graph contains exactly the ordering edges
database cluster → compute node A, compute node A → listener, and
compute node B → listener; no database cluster → compute node B edge is
authored, and no edge in the reverse direction of any of these exists. -/
theorem C1_ordering_edges (scope construct_id : String) (azs : Nat → String)
    (user_data : String) :
    (CdkappStack.resources scope construct_id azs user_data).ordering_edges =
      [("MyDatabase", "MyInstance"), ("MyInstance", "Listener"),
       ("MyInstance2", "Listener")] := rfl

/-- C1 counterexample: at a concrete input, the produced resource graph
does not contain the ordering edge database cluster → compute node B that
the claim asserts. -/
theorem C1_counterexample :
    ("MyDatabase", "MyInstance2") ∉
      (CdkappStack.resources "app" "CdkappStack" exAzs "yum update -y").ordering_edges := by
  decide

/-- C2 (amended): the load balancer declares exactly one listening rule,
on port 80, whose single target group forwards on port 80 but registers
no targets: neither compute node is a target of the listener. -/
theorem C2_listener (scope construct_id : String) (azs : Nat → String)
    (user_data : String) :
    (CdkappStack.resources scope construct_id azs user_data).listeners =
      [{ construct_id := "Listener", port := 80, «open» := true,
         target_groups := [{ construct_id := "Targets", port := 80, targets := [] }] }] ∧
    (CdkappStack.resources scope construct_id azs user_data).lb.security_group = "lb_sg" :=
  ⟨rfl, rfl⟩

/-- C2 counterexample: at a concrete input, no target group of the
produced listener registers compute node A (or any target at all), so the
compute nodes are not the target pool of the listener. -/
theorem C2_counterexample :
    ((CdkappStack.resources "app" "CdkappStack" exAzs "yum update -y").listeners.all
      (fun l => l.target_groups.all
        (fun tg => tg.targets.contains "MyInstance" || tg.targets.contains "MyInstance2"))) = false := by
  decide

/-- C3: the three security groups form exactly the allow-chain: the
inbound set of the load-balancer group is exactly any IPv4 on TCP 80, the
inbound set of the compute group is exactly the load-balancer group on
TCP 8443, the inbound set of the database group is exactly the compute
group on TCP 3306 and 22, and every inbound grant of the database group
names the compute group as its source. -/
theorem C3_allow_chain (scope construct_id : String) (azs : Nat → String)
    (user_data : String) :
    (CdkappStack.resources scope construct_id azs user_data).lb_sg.ingress_rules.toFinset =
      {{ peer := Peer.any_ipv4, connection := Port.tcp 80 }} ∧
    (CdkappStack.resources scope construct_id azs user_data).ec2_sg.ingress_rules.toFinset =
      {{ peer := Peer.security_group "lb_sg", connection := Port.tcp 8443 }} ∧
    (CdkappStack.resources scope construct_id azs user_data).rds_sg.ingress_rules.toFinset =
      {{ peer := Peer.security_group "ec2_sg", connection := Port.tcp 3306 },
       { peer := Peer.security_group "ec2_sg", connection := Port.tcp 22 }} ∧
    ((CdkappStack.resources scope construct_id azs user_data).rds_sg.ingress_rules.all
      (fun r => decide (r.peer = Peer.security_group "ec2_sg"))) = true := by
  have h1 : (CdkappStack.resources scope construct_id azs user_data).lb_sg.ingress_rules =
      [{ peer := Peer.any_ipv4, connection := Port.tcp 80 },
       { peer := Peer.any_ipv4, connection := Port.tcp 80 }] := rfl
  have h2 : (CdkappStack.resources scope construct_id azs user_data).ec2_sg.ingress_rules =
      [{ peer := Peer.security_group "lb_sg", connection := Port.tcp 8443 }] := rfl
  have h3 : (CdkappStack.resources scope construct_id azs user_data).rds_sg.ingress_rules =
      [{ peer := Peer.security_group "ec2_sg", connection := Port.tcp 3306 },
       { peer := Peer.security_group "ec2_sg", connection := Port.tcp 22 }] := rfl
  rw [h1, h2, h3]
  refine ⟨by decide, by decide, by decide, by decide⟩

/-- C4: the two compute nodes are placed in the zones of the VPC at
indices 0 and 1 respectively, hence in distinct zones whenever those two
zones differ, and they agree in machine image and in instance size class,
both t2.small on the same Amazon Linux 2 image value. -/
theorem C4_compute_nodes (scope construct_id : String) (azs : Nat → String)
    (user_data : String) (hz : azs 0 ≠ azs 1) :
    (CdkappStack.resources scope construct_id azs user_data).ec2_instance.availability_zone =
      (CdkappStack.resources scope construct_id azs user_data).vpc.availability_zones 0 ∧
    (CdkappStack.resources scope construct_id azs user_data).ec2_instance2.availability_zone =
      (CdkappStack.resources scope construct_id azs user_data).vpc.availability_zones 1 ∧
    (CdkappStack.resources scope construct_id azs user_data).ec2_instance.availability_zone ≠
      (CdkappStack.resources scope construct_id azs user_data).ec2_instance2.availability_zone ∧
    (CdkappStack.resources scope construct_id azs user_data).ec2_instance.machine_image =
      (CdkappStack.resources scope construct_id azs user_data).ec2_instance2.machine_image ∧
    (CdkappStack.resources scope construct_id azs user_data).ec2_instance.instance_type = "t2.small" ∧
    (CdkappStack.resources scope construct_id azs user_data).ec2_instance2.instance_type = "t2.small" ∧
    (CdkappStack.resources scope construct_id azs user_data).ec2_instance.machine_image.generation =
      "AMAZON_LINUX_2" :=
  ⟨rfl, rfl, hz, rfl, rfl, rfl, rfl⟩

/-- C4 witness: the theorem applied at a concrete input with two distinct
availability zones. -/
theorem C4_witness :
    (CdkappStack.resources "app" "CdkappStack" exAzs "yum update -y").ec2_instance.availability_zone =
      (CdkappStack.resources "app" "CdkappStack" exAzs "yum update -y").vpc.availability_zones 0 ∧
    (CdkappStack.resources "app" "CdkappStack" exAzs "yum update -y").ec2_instance2.availability_zone =
      (CdkappStack.resources "app" "CdkappStack" exAzs "yum update -y").vpc.availability_zones 1 ∧
    (CdkappStack.resources "app" "CdkappStack" exAzs "yum update -y").ec2_instance.availability_zone ≠
      (CdkappStack.resources "app" "CdkappStack" exAzs "yum update -y").ec2_instance2.availability_zone ∧
    (CdkappStack.resources "app" "CdkappStack" exAzs "yum update -y").ec2_instance.machine_image =
      (CdkappStack.resources "app" "CdkappStack" exAzs "yum update -y").ec2_instance2.machine_image ∧
    (CdkappStack.resources "app" "CdkappStack" exAzs "yum update -y").ec2_instance.instance_type = "t2.small" ∧
    (CdkappStack.resources "app" "CdkappStack" exAzs "yum update -y").ec2_instance2.instance_type = "t2.small" ∧
    (CdkappStack.resources "app" "CdkappStack" exAzs "yum update -y").ec2_instance.machine_image.generation =
      "AMAZON_LINUX_2" :=
  C4_compute_nodes "app" "CdkappStack" exAzs "yum update -y" (by decide)

/-- C5: evaluation reads exactly one file, the fixed relative path
cdkapp/userdata.sh, and whenever that file holds content c, both compute
nodes of the produced graph carry exactly c as their user-data payload. -/
theorem C5_boot_payload (scope construct_id : String) (azs : Nat → String)
    (fs : String → Option String) (c : String)
    (h : fs "cdkapp/userdata.sh" = some c) :
    ((evalCdkappStack scope construct_id azs fs).1.map
      (fun g => (g.ec2_instance.user_data, g.ec2_instance2.user_data))) = some (c, c) ∧
    (evalCdkappStack scope construct_id azs fs).2 = ["cdkapp/userdata.sh"] := by
  unfold evalCdkappStack
  rw [h]
  exact ⟨rfl, rfl⟩

/-- C5 witness: the theorem applied to a concrete file system holding the
payload "yum update -y". -/
theorem C5_witness :
    ((evalCdkappStack "app" "CdkappStack" exAzs exFs).1.map
      (fun g => (g.ec2_instance.user_data, g.ec2_instance2.user_data))) =
      some ("yum update -y", "yum update -y") ∧
    (evalCdkappStack "app" "CdkappStack" exAzs exFs).2 = ["cdkapp/userdata.sh"] :=
  C5_boot_payload "app" "CdkappStack" exAzs exFs "yum update -y" rfl

/-- C6: when the boot-payload file is missing or unreadable, evaluation
produces no resource graph at all; the sole attempted read is the fixed
payload path. -/
theorem C6_missing_payload (scope construct_id : String) (azs : Nat → String)
    (fs : String → Option String) (h : fs "cdkapp/userdata.sh" = none) :
    (evalCdkappStack scope construct_id azs fs).1 = none ∧
    (evalCdkappStack scope construct_id azs fs).2 = ["cdkapp/userdata.sh"] := by
  unfold evalCdkappStack
  rw [h]
  exact ⟨rfl, rfl⟩

/-- C6 witness: the theorem applied to a concrete file system with the
payload file absent. -/
theorem C6_witness :
    (evalCdkappStack "app" "CdkappStack" exAzs exFsMissing).1 = none ∧
    (evalCdkappStack "app" "CdkappStack" exAzs exFsMissing).2 = ["cdkapp/userdata.sh"] :=
  C6_missing_payload "app" "CdkappStack" exAzs exFsMissing rfl

/-- C7: declaration evaluation is deterministic: two evaluations with the
same scope, construct id and availability zones, against file systems
agreeing on the boot-payload content, produce identical results, resource
graph included. -/
theorem C7_deterministic (scope construct_id : String) (azs : Nat → String)
    (fs1 fs2 : String → Option String)
    (h : fs1 "cdkapp/userdata.sh" = fs2 "cdkapp/userdata.sh") :
    evalCdkappStack scope construct_id azs fs1 =
      evalCdkappStack scope construct_id azs fs2 := by
  unfold evalCdkappStack
  rw [h]

/-- C7 witness: the theorem applied to two concrete file systems that
agree on the payload path but differ on every other path. -/
theorem C7_witness :
    evalCdkappStack "app" "CdkappStack" exAzs exFs =
      evalCdkappStack "app" "CdkappStack" exAzs exFs2 :=
  C7_deterministic "app" "CdkappStack" exAzs exFs exFs2 rfl

/-- C8: the database cluster is the only declared resource placed in the
isolated subnet class (both compute nodes sit in the egress class and the
load balancer in the public class), it is bound to the database security
group alone, holds exactly one named logical database Population on a
single instance, and its credential pair is the literal hardcoded
testuser and password1234! values, not retrieved from a secret store. -/
theorem C8_database_cluster (scope construct_id : String) (azs : Nat → String)
    (user_data : String) :
    (CdkappStack.resources scope construct_id azs user_data).cluster.instance_props.vpc_subnets =
      SubnetType.PRIVATE_ISOLATED ∧
    (CdkappStack.resources scope construct_id azs user_data).ec2_instance.vpc_subnets =
      SubnetType.PRIVATE_WITH_EGRESS ∧
    (CdkappStack.resources scope construct_id azs user_data).ec2_instance2.vpc_subnets =
      SubnetType.PRIVATE_WITH_EGRESS ∧
    (CdkappStack.resources scope construct_id azs user_data).lb.subnet_placement =
      SubnetType.PUBLIC ∧
    (CdkappStack.resources scope construct_id azs user_data).cluster.instance_props.security_groups =
      ["rds_sg"] ∧
    (CdkappStack.resources scope construct_id azs user_data).cluster.default_database_name =
      "Population" ∧
    (CdkappStack.resources scope construct_id azs user_data).cluster.instances = 1 ∧
    (CdkappStack.resources scope construct_id azs user_data).cluster.credentials =
      Credentials.from_password "testuser" "password1234!" ∧
    (CdkappStack.resources scope construct_id azs user_data).cluster.credentials.from_secret_store =
      false :=
  ⟨rfl, rfl, rfl, rfl, rfl, rfl, rfl, rfl, rfl⟩

/-- C9: all three security groups are declared with allow_all_outbound
set, so every attached resource may initiate outbound connections to any
destination on any port. -/
theorem C9_outbound (scope construct_id : String) (azs : Nat → String)
    (user_data : String) (dest : Peer) (port : Nat) :
    (CdkappStack.resources scope construct_id azs user_data).lb_sg.allow_all_outbound = true ∧
    (CdkappStack.resources scope construct_id azs user_data).rds_sg.allow_all_outbound = true ∧
    (CdkappStack.resources scope construct_id azs user_data).ec2_sg.allow_all_outbound = true ∧
    (CdkappStack.resources scope construct_id azs user_data).lb_sg.allows_outbound dest port = true ∧
    (CdkappStack.resources scope construct_id azs user_data).rds_sg.allows_outbound dest port = true ∧
    (CdkappStack.resources scope construct_id azs user_data).ec2_sg.allows_outbound dest port = true :=
  ⟨rfl, rfl, rfl, rfl, rfl, rfl⟩

/-- C10: the single listener is declared with the open flag, which adds a
second any-IPv4 port-80 grant on top of the explicitly authored rule: the
inbound list of the load-balancer group holds exactly two grants, both
restricted to TCP port 80, so no port other than 80 is admitted. -/
theorem C10_open_listener (scope construct_id : String) (azs : Nat → String)
    (user_data : String) :
    ((CdkappStack.resources scope construct_id azs user_data).listeners.all
      (fun l => l.«open»)) = true ∧
    (CdkappStack.resources scope construct_id azs user_data).lb_sg.ingress_rules =
      [{ peer := Peer.any_ipv4, connection := Port.tcp 80 },
       { peer := Peer.any_ipv4, connection := Port.tcp 80 }] ∧
    (CdkappStack.resources scope construct_id azs user_data).lb_sg.ingress_rules.length = 2 ∧
    ((CdkappStack.resources scope construct_id azs user_data).lb_sg.ingress_rules.all
      (fun r => decide (r.connection.port = 80))) = true :=
  ⟨rfl, rfl, rfl, rfl⟩
